import Mathlib

/-!
Shallow embedding of the booking / payment / report-gating core of the
Archana Pathology portal (src/server/routes.ts, src/shared/schema.ts, and
the abnormal-flag parser in src/client/src/pages/admin/bookings.tsx).

Records mirror the Drizzle tables of src/shared/schema.ts; nullable
columns become `Option`, timestamps become `Nat`, decimal amounts are kept
as the strings the routes pass through.  The persistence layer
(server/storage.ts) is not part of the sources; its operations are plain
CRUD on rows and are modelled from the spec where marked.  Route handlers
become functions from a `Store` (the database state) and the request data
to an explicit result type (one constructor per HTTP outcome) paired with
the successor store.
-/

namespace Archanaa

/-- JavaScript truthiness of an optional string request field:
`undefined`, `null` and the empty string are falsy. -/
def truthyStr : Option String → Bool
  | none => false
  | some s => s != ""

/-- `x || null` on an optional string field, as the routes write
`patientId: patientId || null`. -/
def orNull (o : Option String) : Option String :=
  if truthyStr o then o else none

/-- Booking row, from the `bookings` table of src/shared/schema.ts.
The `slot` timestamp column stores the parsed request slot; date parsing
is value-preserving here (no claim depends on it), so the slot is kept as
the request string. -/
structure Booking where
  id : String
  patientId : Option String
  guestName : Option String
  phone : String
  email : Option String
  testIds : List String
  type : String
  slot : String
  status : String
  paymentMethod : Option String
  paymentStatus : String
  transactionId : Option String
  razorpayOrderId : Option String
  razorpayPaymentId : Option String
  amountPaid : Option String
  paymentDate : Option Nat
  paymentVerifiedAt : Option Nat
  paymentVerifiedBy : Option String
deriving Repr, DecidableEq

/-- Result row, from the `results` table of src/shared/schema.ts
(fields the routes consult). -/
structure LabResult where
  id : String
  patientId : String
  testId : String
deriving Repr, DecidableEq

/-- Report row, from the `reports` table of src/shared/schema.ts. -/
structure Report where
  id : String
  patientId : String
  resultId : String
  bookingId : Option String
  secureDownloadToken : String
deriving Repr, DecidableEq

/-- Otp row, from the `otps` table of src/shared/schema.ts. -/
structure Otp where
  id : String
  contact : String
  otp : String
  purpose : String
  attempts : Nat
  expiresAt : Nat
deriving Repr, DecidableEq

/-- Patient row (fields the modelled routes consult), from the
`patients` table of src/shared/schema.ts. -/
structure Patient where
  id : String
  email : Option String
  emailVerified : Bool
deriving Repr, DecidableEq

/-- Database state: the rows of the tables the modelled routes touch. -/
structure Store where
  bookings : List Booking
  reports : List Report
  results : List LabResult
  otps : List Otp
  patients : List Patient
deriving Repr, DecidableEq

/-- Modelled from the spec: `storage.getBooking` (server/storage.ts is not
under src/) — key/value-by-id lookup of a booking row (spec §1). -/
def getBooking (s : Store) (id : String) : Option Booking :=
  s.bookings.find? (fun b => b.id == id)

/-- Modelled from the spec: `storage.getReportByToken` — lookup of the
report row carrying the given secure download token (the token column is
unique, spec §3). -/
def getReportByToken (s : Store) (token : String) : Option Report :=
  s.reports.find? (fun r => r.secureDownloadToken == token)

/-- Modelled from the spec: `storage.getResult` — lookup of a result row
by id. -/
def getResult (s : Store) (id : String) : Option LabResult :=
  s.results.find? (fun r => r.id == id)

/-- Modelled from the spec: `storage.getBookingsByPatient` — the bookings
whose patient reference is the given patient. -/
def getBookingsByPatient (s : Store) (pid : String) : List Booking :=
  s.bookings.filter (fun b => b.patientId == some pid)

/-- Modelled from the spec: `storage.getReportsByPatient` — the reports
whose patient reference is the given patient. -/
def getReportsByPatient (s : Store) (pid : String) : List Report :=
  s.reports.filter (fun r => r.patientId == pid)

/-- Replace the booking row with the given id (storage updates write the
given fields to the row with that id). -/
def updateBookingRow (s : Store) (id : String) (f : Booking → Booking) : Store :=
  { s with bookings := s.bookings.map (fun b => if b.id == id then f b else b) }

/-- The payment statuses under which a report is downloadable,
routes.ts line 790. -/
def allowedPaymentStatuses : List String :=
  ["verified", "cash_on_delivery", "pay_at_lab"]

/-- Outcome of `GET /api/reports/download/:token`. -/
inductive DownloadResult where
  /-- 404 "Report not found or link expired" -/
  | reportNotFound
  /-- 403 "Unable to verify payment status" (bookingId set, booking absent) -/
  | paymentUnverifiable
  /-- 403 "Payment is not verified" (PaymentRequiredError) -/
  | paymentRequired
  /-- 200, the report artifact is served -/
  | served (report : Report)
deriving Repr, DecidableEq

/-- `GET /api/reports/download/:token`, routes.ts lines 772-798: look the
report up by token; if it has a bookingId, refuse with 403 when the
booking is absent or its payment status is not allowed; reports without a
bookingId (legacy) are served unconditionally. -/
def downloadReport (s : Store) (token : String) : DownloadResult :=
  match getReportByToken s token with
  | none => .reportNotFound
  | some report =>
    match report.bookingId with
    | some bid =>
      match getBooking s bid with
      | none => .paymentUnverifiable
      | some booking =>
        if allowedPaymentStatuses.contains booking.paymentStatus then
          .served report
        else
          .paymentRequired
    | none => .served report

/-- Request body of `POST /api/bookings` (routes.ts line 730): every field
may be absent (`Option`). -/
structure BookingRequest where
  patientId : Option String
  guestName : Option String
  phone : Option String
  email : Option String
  testIds : Option (List String)
  type : Option String
  slot : Option String
  paymentMethod : Option String
  transactionId : Option String
  amountPaid : Option String
  razorpayOrderId : Option String
  razorpayPaymentId : Option String
deriving Repr, DecidableEq

/-- Outcome of `POST /api/bookings`. -/
inductive CreateBookingResult where
  /-- 400 with the given message -/
  | validationError (msg : String)
  /-- 200 with the created booking -/
  | created (b : Booking)
deriving Repr, DecidableEq

/-- `POST /api/bookings`, routes.ts lines 728-769.  `newId` is the id the
store assigns to the new row and `now` the request time (`new Date()`).
Note that the guard `!phone || !testIds || !type || !slot` only catches
absent fields: a present JavaScript array is truthy even when empty, so
`testIds` is checked with `isNone`. -/
def createBooking (r : BookingRequest) (newId : String) (now : Nat) :
    CreateBookingResult :=
  if !(truthyStr r.phone) || r.testIds.isNone || !(truthyStr r.type) ||
      !(truthyStr r.slot) then
    .validationError "Missing required fields"
  else if !(truthyStr r.paymentMethod) then
    .validationError "Payment method is required"
  else
    let paymentMethod := r.paymentMethod.getD ""
    let isCashPayment :=
      paymentMethod == "cash_on_delivery" || paymentMethod == "pay_at_lab"
    let isRazorpayVerified :=
      truthyStr r.razorpayPaymentId && truthyStr r.razorpayOrderId
    let paymentStatus :=
      if isCashPayment then paymentMethod
      else if isRazorpayVerified then "verified" else "paid_unverified"
    .created {
      id := newId
      patientId := orNull r.patientId
      guestName := orNull r.guestName
      phone := r.phone.getD ""
      email := orNull r.email
      testIds := r.testIds.getD []
      type := r.type.getD ""
      slot := r.slot.getD ""
      status := "pending"
      paymentMethod := some paymentMethod
      paymentStatus := paymentStatus
      transactionId := orNull r.transactionId
      razorpayOrderId := orNull r.razorpayOrderId
      razorpayPaymentId := orNull r.razorpayPaymentId
      amountPaid := orNull r.amountPaid
      paymentDate := some now
      paymentVerifiedAt := none
      paymentVerifiedBy := none }

/-- Outcome of `PATCH /api/admin/bookings/:id/verify-payment`. -/
inductive VerifyPaymentResult where
  /-- 404 "Booking not found" (NotFoundError) -/
  | notFound
  /-- 400 "Payment is not pending verification" (InvalidStateError) -/
  | invalidState
  /-- 200 with the updated booking -/
  | ok (b : Booking)
deriving Repr, DecidableEq

/-- Modelled from the spec: `storage.verifyBookingPayment`
(server/storage.ts is not under src/) — transition `paid_unverified →
verified`, recording the verifying-admin id and the verification
timestamp on the row (spec §4.1). -/
def verifyBookingPayment (b : Booking) (adminId : String) (now : Nat) :
    Booking :=
  { b with
    paymentStatus := "verified"
    paymentVerifiedBy := some adminId
    paymentVerifiedAt := some now }

/-- `PATCH /api/admin/bookings/:id/verify-payment`, routes.ts lines
1077-1101: 404 when the booking is absent, 400 when its payment status is
not exactly `paid_unverified`, else apply `verifyBookingPayment`. -/
def verifyPayment (s : Store) (id adminId : String) (now : Nat) :
    VerifyPaymentResult × Store :=
  match getBooking s id with
  | none => (.notFound, s)
  | some booking =>
    if booking.paymentStatus != "paid_unverified" then
      (.invalidState, s)
    else
      (.ok (verifyBookingPayment booking adminId now),
       updateBookingRow s id (fun b => verifyBookingPayment b adminId now))

/-- Request body of `PATCH /api/patient/bookings/:id/payment`. -/
structure PatientPaymentRequest where
  paymentMethod : Option String
  transactionId : Option String
  amountPaid : Option String
deriving Repr, DecidableEq

/-- Outcome of `PATCH /api/patient/bookings/:id/payment`. -/
inductive PatientPaymentResult where
  /-- 400 "Payment method and amount are required" (ValidationError) -/
  | validationError
  /-- 404 "Booking not found" (NotFoundError) -/
  | notFound
  /-- 403 "Unauthorized" (ForbiddenError, ownership mismatch) -/
  | forbidden
  /-- 200 with the updated booking -/
  | ok (b : Booking)
deriving Repr, DecidableEq

/-- Modelled from the spec: `storage.updateBookingPayment`
(server/storage.ts is not under src/) — write the given payment fields to
the booking row; a field passed as `undefined` (the route writes
`transactionId: transactionId || undefined`) is left unchanged. -/
def updateBookingPayment (b : Booking) (paymentMethod paymentStatus : String)
    (transactionId amountPaid : Option String) (paymentDate : Nat) : Booking :=
  { b with
    paymentMethod := some paymentMethod
    paymentStatus := paymentStatus
    transactionId :=
      match transactionId with
      | some t => some t
      | none => b.transactionId
    amountPaid := amountPaid
    paymentDate := some paymentDate }

/-- `PATCH /api/patient/bookings/:id/payment`, routes.ts lines 941-977:
validation of method and amount, 404 on absent booking, 403 when the
booking's patient reference differs from the authenticated patient, else
recompute the payment status with the cash-vs-unverified rule (the
gateway-verified path is absent here) and stamp the payment date. -/
def recordPatientPayment (s : Store) (id userId : String)
    (r : PatientPaymentRequest) (now : Nat) : PatientPaymentResult × Store :=
  if !(truthyStr r.paymentMethod) || !(truthyStr r.amountPaid) then
    (.validationError, s)
  else
    match getBooking s id with
    | none => (.notFound, s)
    | some booking =>
      if booking.patientId != some userId then
        (.forbidden, s)
      else
        let paymentMethod := r.paymentMethod.getD ""
        let isCashPayment :=
          paymentMethod == "cash_on_delivery" || paymentMethod == "pay_at_lab"
        let paymentStatus :=
          if isCashPayment then paymentMethod else "paid_unverified"
        let upd : Booking → Booking := fun b =>
          updateBookingPayment b paymentMethod paymentStatus
            (orNull r.transactionId) r.amountPaid now
        (.ok (upd booking), updateBookingRow s id upd)

/-- Outcome of `PATCH /api/admin/bookings/:id/status`. -/
inductive UpdateStatusResult where
  /-- 404 "Booking not found" (NotFoundError) -/
  | notFound
  /-- 200 with the updated booking -/
  | ok (b : Booking)
deriving Repr, DecidableEq

/-- Modelled from the spec: `storage.updateBookingStatus`
(server/storage.ts is not under src/) — store the supplied status value
verbatim on the booking row and return the updated row, or nothing when
the booking is absent (spec §4.1: the five values are treated as a label
set and no ordering or membership is enforced). -/
def updateBookingStatus (s : Store) (id status : String) :
    Option Booking × Store :=
  match getBooking s id with
  | none => (none, s)
  | some booking =>
    (some { booking with status := status },
     updateBookingRow s id (fun b => { b with status := status }))

/-- `PATCH /api/admin/bookings/:id/status`, routes.ts lines 1059-1074:
delegate to the storage update; 404 when it reports the booking absent. -/
def updateStatus (s : Store) (id status : String) :
    UpdateStatusResult × Store :=
  match updateBookingStatus s id status with
  | (none, s1) => (.notFound, s1)
  | (some booking, s1) => (.ok booking, s1)

/-- One entry of the `GET /api/patient/reports` response (the fields the
gate rule concerns). -/
structure ReportListEntry where
  reportId : String
  paymentVerified : Bool
  paymentStatus : String
  secureDownloadToken : Option String
deriving Repr, DecidableEq

/-- The per-report body of `GET /api/patient/reports`, routes.ts lines
900-931: resolve the booking by the report's own bookingId among the
patient's bookings, falling back to the first booking sharing the
result's test id; the download token is included only when the resolved
booking's payment status is allowed (no resolved booking counts as not
verified). -/
def reportListEntry (bookings : List Booking) (s : Store) (report : Report) :
    ReportListEntry :=
  let result := getResult s report.resultId
  let byId : Option Booking :=
    match report.bookingId with
    | some bid => bookings.find? (fun b => b.id == bid)
    | none => none
  let associatedBooking : Option Booking :=
    match byId with
    | some b => some b
    | none =>
      match result with
      | some res =>
        if res.testId != "" then
          bookings.find? (fun b => b.testIds.contains res.testId)
        else none
      | none => none
  let paymentVerified :=
    match associatedBooking with
    | some b => allowedPaymentStatuses.contains b.paymentStatus
    | none => false
  { reportId := report.id
    paymentVerified := paymentVerified
    paymentStatus :=
      match associatedBooking with
      | some b => if b.paymentStatus != "" then b.paymentStatus else "pending"
      | none => "pending"
    secureDownloadToken :=
      if paymentVerified then some report.secureDownloadToken else none }

/-- `GET /api/patient/reports`, routes.ts lines 894-938. -/
def listPatientReports (s : Store) (pid : String) : List ReportListEntry :=
  (getReportsByPatient s pid).map
    (reportListEntry (getBookingsByPatient s pid) s)

/-- Modelled from the spec: `storage.getOtpByContact` (server/storage.ts
is not under src/) — "the" live OTP row for a contact and purpose (spec §5
assumes at most one per contact+purpose; the first matching row is
returned). -/
def getOtpByContact (s : Store) (contact purpose : String) : Option Otp :=
  s.otps.find? (fun o => o.contact == contact && o.purpose == purpose)

/-- Modelled from the spec: `storage.deleteOtp` — remove the OTP row with
the given id. -/
def deleteOtp (s : Store) (id : String) : Store :=
  { s with otps := s.otps.filter (fun o => !(o.id == id)) }

/-- Modelled from the spec: `storage.incrementOtpAttempts` — add one to
the attempt counter of the OTP row with the given id. -/
def incrementOtpAttempts (s : Store) (id : String) : Store :=
  { s with otps := s.otps.map (fun o =>
      if o.id == id then { o with attempts := o.attempts + 1 } else o) }

/-- Modelled from the spec: `storage.getPatientByEmail` — lookup of the
patient row with the given email. -/
def getPatientByEmail (s : Store) (email : String) : Option Patient :=
  s.patients.find? (fun p => p.email == some email)

/-- Modelled from the spec: `storage.updatePatientEmailVerified` — set the
email-verified flag of the patient row with the given id. -/
def updatePatientEmailVerified (s : Store) (id : String) (v : Bool) : Store :=
  { s with patients := s.patients.map (fun p =>
      if p.id == id then { p with emailVerified := v } else p) }

/-- Outcome of `POST /api/auth/verify-email`. -/
inductive VerifyEmailResult where
  /-- 400 "Email and OTP are required" -/
  | missingFields
  /-- 400 "No verification request found" -/
  | noRequest
  /-- 400 "Maximum attempts exceeded" (AttemptsExceededError) -/
  | attemptsExceeded
  /-- 400 "Invalid OTP" with the advertised remaining attempts
  (InvalidCodeError) -/
  | invalidCode (remaining : Int)
  /-- 404 "Patient not found" -/
  | patientNotFound
  /-- 200, email verified -/
  | ok
deriving Repr, DecidableEq

/-- `POST /api/auth/verify-email`, routes.ts lines 423-479: look up the
OTP row for the email; refuse when absent; when its attempt counter has
already reached 3, delete the row and report attempts exceeded; otherwise
increment the counter first, then compare the code (a mismatch reports
`2 - attempts` remaining attempts); on a match delete the row and mark
the patient's email verified. -/
def verifyEmail (s : Store) (email otpInput : String) :
    VerifyEmailResult × Store :=
  if email == "" || otpInput == "" then (.missingFields, s)
  else
    match getOtpByContact s email "email_verification" with
    | none => (.noRequest, s)
    | some otpRecord =>
      if otpRecord.attempts ≥ 3 then
        (.attemptsExceeded, deleteOtp s otpRecord.id)
      else
        let s1 := incrementOtpAttempts s otpRecord.id
        if otpRecord.otp != otpInput then
          (.invalidCode (2 - (otpRecord.attempts : Int)), s1)
        else
          let s2 := deleteOtp s1 otpRecord.id
          match getPatientByEmail s2 email with
          | none => (.patientNotFound, s2)
          | some p => (.ok, updatePatientEmailVerified s2 p.id true)

/-- The five fulfilment statuses, src/shared/schema.ts line 199. -/
def bookingStatuses : List String :=
  ["pending", "collected", "processing", "report_ready", "delivered"]

/-!
The abnormal-flag parser `isValueAbnormal` of
src/client/src/pages/admin/bookings.tsx (lines 252-275).  The JavaScript
number semantics is embedded with exact decimal values: a parsed literal
`mantissa / 10 ^ scale` (its decimal digits are exact in this range), plus
the two infinities `parseFloat` can produce from an `Infinity` literal.
NaN is represented by `Option.none` (the code tests `isNaN` right after
parsing and never compares a NaN).
-/

/-- The whitespace class `\s` of the JavaScript regexes and the leading
whitespace `parseFloat` skips (the ASCII members; the code only ever sees
ASCII range expressions). -/
def jsSpace (c : Char) : Bool :=
  c == ' ' || c == '\t' || c == '\n' || c == '\r' || c == '\x0b' || c == '\x0c'

/-- Greedy `\d*`: the longest digit prefix and the remainder. -/
def takeDigits : List Char → List Char × List Char
  | [] => ([], [])
  | c :: cs =>
    if c.isDigit then
      let (d, r) := takeDigits cs
      (c :: d, r)
    else ([], c :: cs)

/-- `10 ^ n` on `Int` by structural recursion (kernel-reducible). -/
def pow10 : Nat → Int
  | 0 => 1
  | n + 1 => 10 * pow10 n

/-- An exact decimal value `mantissa / 10 ^ scale`. -/
structure DecNum where
  mantissa : Int
  scale : Nat
deriving Repr, DecidableEq

/-- Strict order on decimal values (cross-multiplied). -/
def DecNum.ltb (a b : DecNum) : Bool :=
  decide (a.mantissa * pow10 b.scale < b.mantissa * pow10 a.scale)

/-- Negation of a decimal value. -/
def DecNum.neg (a : DecNum) : DecNum :=
  { a with mantissa := -a.mantissa }

/-- Scaling by `10 ^ e` (the exponent part of a JavaScript number
literal). -/
def DecNum.applyExp (a : DecNum) : Int → DecNum
  | .ofNat n => { a with mantissa := a.mantissa * pow10 n }
  | .negSucc n => { a with scale := a.scale + (n + 1) }

/-- A non-NaN JavaScript number as `parseFloat` can produce it. -/
inductive JsNum where
  | num (d : DecNum)
  | posInf
  | negInf
deriving Repr, DecidableEq

/-- JavaScript `<` on non-NaN numbers. -/
def JsNum.ltb : JsNum → JsNum → Bool
  | .num a, .num b => DecNum.ltb a b
  | .num _, .posInf => true
  | .negInf, .num _ => true
  | .negInf, .posInf => true
  | _, _ => false

/-- JavaScript `>` on non-NaN numbers. -/
def JsNum.gtb (a b : JsNum) : Bool := JsNum.ltb b a

/-- JavaScript `>=` on non-NaN numbers (`a >= b` is `¬ a < b` when
neither side is NaN). -/
def JsNum.geb (a b : JsNum) : Bool := !(JsNum.ltb a b)

/-- JavaScript `<=` on non-NaN numbers. -/
def JsNum.leb (a b : JsNum) : Bool := !(JsNum.ltb b a)

/-- Value of a digit run (most significant first). -/
def digitsToNat (ds : List Char) : Nat :=
  ds.foldl (fun acc c => 10 * acc + (c.toNat - 48)) 0

/-- The decimal-literal body `digits [. digits] | . digits` of a
JavaScript number, longest prefix; yields its exact value and the
remainder, or nothing when no literal starts here (NaN). -/
def parseMantissa (cs : List Char) : Option (DecNum × List Char) :=
  let (ip, r1) := takeDigits cs
  match r1 with
  | '.' :: r2 =>
    let (fp, r3) := takeDigits r2
    if ip.isEmpty && fp.isEmpty then none
    else some ({ mantissa := (digitsToNat (ip ++ fp) : Int),
                 scale := fp.length }, r3)
  | _ =>
    if ip.isEmpty then none
    else some ({ mantissa := (digitsToNat ip : Int), scale := 0 }, r1)

/-- The optional exponent part `e|E [+|-] digits` of a JavaScript number
literal; a malformed exponent is not part of the longest valid prefix and
contributes factor `10 ^ 0`. -/
def parseExponent (cs : List Char) : Int :=
  match cs with
  | c :: rest =>
    if c == 'e' || c == 'E' then
      match rest with
      | '+' :: r2 =>
        let (d, _) := takeDigits r2
        if d.isEmpty then 0 else (digitsToNat d : Int)
      | '-' :: r2 =>
        let (d, _) := takeDigits r2
        if d.isEmpty then 0 else -(digitsToNat d : Int)
      | r2 =>
        let (d, _) := takeDigits r2
        if d.isEmpty then 0 else (digitsToNat d : Int)
    else 0
  | [] => 0

/-- JavaScript `parseFloat` on the characters of a string: skip leading
whitespace, an optional sign, then the longest `Infinity` or decimal
literal prefix; `none` is NaN. -/
def jsParseFloatChars (cs0 : List Char) : Option JsNum :=
  let cs1 := cs0.dropWhile (fun c => jsSpace c)
  let signAndRest : Bool × List Char :=
    match cs1 with
    | '-' :: r => (true, r)
    | '+' :: r => (false, r)
    | _ => (false, cs1)
  let neg := signAndRest.1
  let cs2 := signAndRest.2
  if cs2.take 8 == "Infinity".data then
    some (if neg then .negInf else .posInf)
  else
    match parseMantissa cs2 with
    | none => none
    | some (m, rest) =>
      let withExp := DecNum.applyExp m (parseExponent rest)
      some (.num (if neg then DecNum.neg withExp else withExp))

/-- `parseFloat` on a string. -/
def jsParseFloat (s : String) : Option JsNum :=
  jsParseFloatChars s.data

/-- Value of a captured number group (`\d+\.?\d*` always starts with a
digit, so parsing a capture never yields NaN; the default is dead). -/
def parseCapture (cs : List Char) : JsNum :=
  (jsParseFloatChars cs).getD (.num { mantissa := 0, scale := 0 })

/-- Match of `(\d+\.?\d*)\s*-\s*(\d+\.?\d*)` anchored at the head of the
list: the two captured number groups.  The pattern needs no backtracking:
every greedy sub-match is followed by a literal the consumed class
excludes. -/
def matchRangeAt (cs : List Char) : Option (List Char × List Char) :=
  let (d1, r1) := takeDigits cs
  if d1.isEmpty then none
  else
    let cap1AndRest : List Char × List Char :=
      match r1 with
      | '.' :: r2 =>
        let (f1, r3) := takeDigits r2
        (d1 ++ '.' :: f1, r3)
      | _ => (d1, r1)
    let cap1 := cap1AndRest.1
    match (cap1AndRest.2.dropWhile fun c => jsSpace c) with
    | '-' :: r4 =>
      let r5 := r4.dropWhile (fun c => jsSpace c)
      let (d2, r6) := takeDigits r5
      if d2.isEmpty then none
      else
        match r6 with
        | '.' :: r7 =>
          let (f2, _) := takeDigits r7
          some (cap1, d2 ++ '.' :: f2)
        | _ => some (cap1, d2)
    | _ => none

/-- First match of the range pattern anywhere in the list
(`String.prototype.match` finds the leftmost match). -/
def searchRange : List Char → Option (List Char × List Char)
  | [] => none
  | c :: cs =>
    match matchRangeAt (c :: cs) with
    | some x => some x
    | none => searchRange cs

/-- Match of `sym` `\s*(\d+\.?\d*)` anchored at the head of the list
(`sym` is `<` or `>`): the captured number group. -/
def matchCmpAt (sym : Char) (cs : List Char) : Option (List Char) :=
  match cs with
  | [] => none
  | c :: rest =>
    if c == sym then
      let r1 := rest.dropWhile (fun ch => jsSpace ch)
      let (d, r2) := takeDigits r1
      if d.isEmpty then none
      else
        match r2 with
        | '.' :: r3 =>
          let (f, _) := takeDigits r3
          some (d ++ '.' :: f)
        | _ => some d
    else none

/-- First match of the `sym`-comparison pattern anywhere in the list. -/
def searchCmp (sym : Char) : List Char → Option (List Char)
  | [] => none
  | c :: cs =>
    match matchCmpAt sym (c :: cs) with
    | some x => some x
    | none => searchCmp sym cs

/-- `isValueAbnormal`, src/client/src/pages/admin/bookings.tsx lines
252-275: empty inputs and non-numeric values are never abnormal; a
`lo-hi` range flags values strictly outside `[lo, hi]`; `<N` flags values
`>= N`; `>N` flags values `<= N`; anything else is never flagged. -/
def isValueAbnormal (value normalRange : String) : Bool :=
  if value.data.isEmpty || normalRange.data.isEmpty then false
  else
    match jsParseFloatChars value.data with
    | none => false
    | some numValue =>
      match searchRange normalRange.data with
      | some (minCap, maxCap) =>
        JsNum.ltb numValue (parseCapture minCap) ||
          JsNum.gtb numValue (parseCapture maxCap)
      | none =>
        match searchCmp '<' normalRange.data with
        | some cap => JsNum.geb numValue (parseCapture cap)
        | none =>
          match searchCmp '>' normalRange.data with
          | some cap => JsNum.leb numValue (parseCapture cap)
          | none => false

/-!  Helper lemmas about the store. -/

/-- `find?` by id after an id-preserving row update: the found row is the
updated image of the previously found row. -/
theorem find_map_update (l : List Booking) (id : String)
    (f : Booking → Booking) (hf : ∀ b, (f b).id = b.id) :
    (l.map (fun b => if b.id == id then f b else b)).find?
        (fun b => b.id == id) =
      (l.find? (fun b => b.id == id)).map f := by
  induction l with
  | nil => simp
  | cons hd tl ih =>
    by_cases h : hd.id == id
    · simp only [List.map_cons, if_pos h, List.find?_cons]
      rw [hf hd]
      simp [h]
    · have hb : (hd.id == id) = false := by simpa using h
      simp only [List.map_cons, List.find?_cons, hb, Bool.false_eq_true,
        if_false]
      exact ih

/-- Looking a booking up after an id-preserving update of that booking. -/
theorem getBooking_updateBookingRow (s : Store) (id : String)
    (f : Booking → Booking) (hf : ∀ b, (f b).id = b.id) :
    getBooking (updateBookingRow s id f) id = (getBooking s id).map f := by
  unfold getBooking updateBookingRow
  exact find_map_update s.bookings id f hf

/-!  C1 / C10: the report-download gate. -/

/-- C1: for every report whose bookingId refers to an existing booking,
the download endpoint serves the report if and only if that booking's
paymentStatus is one of verified, cash_on_delivery or pay_at_lab, and
otherwise refuses with PaymentRequiredError (403); for every report with
no bookingId (legacy), the download endpoint serves the report
unconditionally. -/
theorem download_gate_spec (s : Store) (token : String) (report : Report)
    (hrep : getReportByToken s token = some report) :
    (∀ bid booking, report.bookingId = some bid →
        getBooking s bid = some booking →
        (downloadReport s token = .served report ↔
          booking.paymentStatus ∈ allowedPaymentStatuses) ∧
        (booking.paymentStatus ∉ allowedPaymentStatuses →
          downloadReport s token = .paymentRequired)) ∧
    (report.bookingId = none → downloadReport s token = .served report) := by
  constructor
  · intro bid booking hbid hbk
    by_cases h : booking.paymentStatus ∈ allowedPaymentStatuses
    · constructor
      · simp [downloadReport, hrep, hbid, hbk, h]
      · intro hmem
        exact absurd h hmem
    · constructor
      · simp [downloadReport, hrep, hbid, hbk, h]
      · intro _
        simp [downloadReport, hrep, hbid, hbk, h]
  · intro hnone
    simp [downloadReport, hrep, hnone]

/-- C10: a report whose bookingId refers to a booking that does not exist
in the store is refused with 403 ("Unable to verify payment status"),
not served and not treated as legacy. -/
theorem download_dangling_booking (s : Store) (token : String)
    (report : Report) (bid : String)
    (hrep : getReportByToken s token = some report)
    (hbid : report.bookingId = some bid)
    (hnone : getBooking s bid = none) :
    downloadReport s token = .paymentUnverifiable := by
  simp [downloadReport, hrep, hbid, hnone]

/-!  Concrete rows used by the witnesses. -/

/-- A verified booking. -/
def wBooking : Booking :=
  { id := "b1", patientId := some "p1", guestName := none, phone := "99"
    email := none, testIds := ["t1"], type := "walkin", slot := "s"
    status := "pending", paymentMethod := some "upi"
    paymentStatus := "verified", transactionId := none
    razorpayOrderId := none, razorpayPaymentId := none
    amountPaid := some "100", paymentDate := some 0
    paymentVerifiedAt := none, paymentVerifiedBy := none }

/-- A report linked to `wBooking`. -/
def wReport : Report :=
  { id := "r1", patientId := "p1", resultId := "res1"
    bookingId := some "b1", secureDownloadToken := "tok1" }

/-- A report whose bookingId dangles. -/
def wReportDangling : Report :=
  { id := "r2", patientId := "p1", resultId := "res2"
    bookingId := some "missing", secureDownloadToken := "tok2" }

/-- Store holding the two reports and the one booking. -/
def wStore : Store :=
  { bookings := [wBooking], reports := [wReport, wReportDangling]
    results := [], otps := [], patients := [] }

/-- Witness for C1: in `wStore` the verified booking's report is served. -/
theorem download_gate_spec_witness :
    downloadReport wStore "tok1" = .served wReport :=
  ((download_gate_spec wStore "tok1" wReport (by decide)).1 "b1" wBooking
    (by decide) (by decide)).1.mpr (by decide)

/-- Witness for C10: in `wStore` the dangling report is refused with the
unverifiable-payment 403. -/
theorem download_dangling_booking_witness :
    downloadReport wStore "tok2" = .paymentUnverifiable :=
  download_dangling_booking wStore "tok2" wReportDangling "missing"
    (by decide) (by decide) (by decide)

/-!  C2: admin payment verification. -/

/-- C2: verifyPayment succeeds iff the booking exists with paymentStatus
exactly paid_unverified, transitioning it to verified and recording the
verifying admin and timestamp; any other current status gives
InvalidStateError (so a second call after a success fails), and an absent
booking gives NotFoundError. -/
theorem verify_payment_spec (s : Store) (id adminId : String) (now : Nat) :
    (getBooking s id = none → verifyPayment s id adminId now = (.notFound, s)) ∧
    (∀ b, getBooking s id = some b → b.paymentStatus ≠ "paid_unverified" →
      verifyPayment s id adminId now = (.invalidState, s)) ∧
    (∀ b, getBooking s id = some b → b.paymentStatus = "paid_unverified" →
      ∃ s1, verifyPayment s id adminId now =
          (.ok (verifyBookingPayment b adminId now), s1) ∧
        (verifyBookingPayment b adminId now).paymentStatus = "verified" ∧
        (verifyBookingPayment b adminId now).paymentVerifiedBy = some adminId ∧
        (verifyBookingPayment b adminId now).paymentVerifiedAt = some now ∧
        getBooking s1 id = some (verifyBookingPayment b adminId now) ∧
        (verifyPayment s1 id adminId now).1 = .invalidState) := by
  refine ⟨?_, ?_, ?_⟩
  · intro h
    simp [verifyPayment, h]
  · intro b hb hne
    have hbne : (b.paymentStatus != "paid_unverified") = true := by
      simpa using hne
    simp [verifyPayment, hb, hbne]
  · intro b hb heq
    have hbne : (b.paymentStatus != "paid_unverified") = false := by
      simp [heq]
    have hf : ∀ x : Booking, (verifyBookingPayment x adminId now).id = x.id :=
      fun x => rfl
    have hb1 : getBooking (updateBookingRow s id
        (fun x => verifyBookingPayment x adminId now)) id =
        some (verifyBookingPayment b adminId now) := by
      rw [getBooking_updateBookingRow s id _ hf, hb]
      rfl
    refine ⟨updateBookingRow s id (fun x => verifyBookingPayment x adminId now),
      ?_, rfl, rfl, rfl, hb1, ?_⟩
    · simp [verifyPayment, hb, hbne]
    · have h2 : (verifyBookingPayment b adminId now).paymentStatus =
          "verified" := rfl
      simp [verifyPayment, hb1, h2]

/-- A booking awaiting manual verification. -/
def w2Booking : Booking :=
  { wBooking with id := "b2", paymentStatus := "paid_unverified" }

/-- Store holding only `w2Booking`. -/
def w2Store : Store :=
  { bookings := [w2Booking], reports := [], results := [], otps := []
    patients := [] }

/-- Witness for C2: verifying `w2Booking` succeeds and yields the
verified row. -/
theorem verify_payment_spec_witness :
    (verifyPayment w2Store "b2" "admin1" 5).1 =
      .ok (verifyBookingPayment w2Booking "admin1" 5) := by
  obtain ⟨s1, h1, -⟩ :=
    (verify_payment_spec w2Store "b2" "admin1" 5).2.2 w2Booking
      (by decide) (by decide)
  rw [h1]

/-!  C3: initial payment status at booking creation. -/

/-- C3: a created booking's paymentStatus is the payment method string
for the cash methods; otherwise it is verified when both gateway ids are
present (a present id is a non-empty value, matching JavaScript
truthiness) and paid_unverified when they are not. -/
theorem create_booking_payment_status (r : BookingRequest) (newId : String)
    (now : Nat) (b : Booking)
    (h : createBooking r newId now = .created b) :
    (∀ m, r.paymentMethod = some m →
      (m = "cash_on_delivery" ∨ m = "pay_at_lab") → b.paymentStatus = m) ∧
    (∀ m, r.paymentMethod = some m → m ≠ "cash_on_delivery" →
      m ≠ "pay_at_lab" → truthyStr r.razorpayPaymentId = true →
      truthyStr r.razorpayOrderId = true → b.paymentStatus = "verified") ∧
    (∀ m, r.paymentMethod = some m → m ≠ "cash_on_delivery" →
      m ≠ "pay_at_lab" →
      ¬(truthyStr r.razorpayPaymentId = true ∧
        truthyStr r.razorpayOrderId = true) →
      b.paymentStatus = "paid_unverified") := by
  unfold createBooking at h
  split at h
  · exact absurd h (by simp)
  · split at h
    · exact absurd h (by simp)
    · injection h with hb
      refine ⟨?_, ?_, ?_⟩
      · intro m hm hcash
        rw [← hb]
        rcases hcash with hc | hc <;> subst hc <;> simp [hm]
      · intro m hm hc1 hc2 hp ho
        rw [← hb]
        have e1 : (m == "cash_on_delivery") = false := by simpa using hc1
        have e2 : (m == "pay_at_lab") = false := by simpa using hc2
        simp [hm, e1, e2, hp, ho]
      · intro m hm hc1 hc2 hno
        rw [← hb]
        have e1 : (m == "cash_on_delivery") = false := by simpa using hc1
        have e2 : (m == "pay_at_lab") = false := by simpa using hc2
        have e3 : (truthyStr r.razorpayPaymentId &&
            truthyStr r.razorpayOrderId) = false := by
          cases hp : truthyStr r.razorpayPaymentId with
          | false => simp [hp]
          | true =>
            cases ho : truthyStr r.razorpayOrderId with
            | false => simp [ho]
            | true => exact absurd ⟨hp, ho⟩ hno
        simp [hm, e1, e2, e3]

/-- A cash-method booking request. -/
def w3Request : BookingRequest :=
  { patientId := none, guestName := some "G", phone := some "9"
    email := none, testIds := some ["t1"], type := some "walkin"
    slot := some "sl", paymentMethod := some "pay_at_lab"
    transactionId := none, amountPaid := none, razorpayOrderId := none
    razorpayPaymentId := none }

/-- Witness for C3: a pay_at_lab booking is created with paymentStatus
pay_at_lab. -/
theorem create_booking_payment_status_witness :
    ∃ b, createBooking w3Request "id1" 0 = .created b ∧
      b.paymentStatus = "pay_at_lab" := by
  refine ⟨_, rfl, ?_⟩
  exact (create_booking_payment_status w3Request "id1" 0 _ rfl).1
    "pay_at_lab" rfl (Or.inr rfl)

/-!  C9: fulfilment-status update. -/

/-- C9: for an existing booking, any of the five enumerated statuses is
stored verbatim and the updated booking returned; an absent booking id
gives NotFoundError. -/
theorem update_status_spec (s : Store) (id status : String) :
    (getBooking s id = none → updateStatus s id status = (.notFound, s)) ∧
    (∀ b, getBooking s id = some b → status ∈ bookingStatuses →
      ∃ s1, updateStatus s id status =
          (.ok { b with status := status }, s1) ∧
        getBooking s1 id = some { b with status := status }) := by
  constructor
  · intro h
    simp [updateStatus, updateBookingStatus, h]
  · intro b hb _
    have hf : ∀ x : Booking,
        ({ x with status := status } : Booking).id = x.id := fun x => rfl
    refine ⟨updateBookingRow s id (fun x => { x with status := status }),
      ?_, ?_⟩
    · simp [updateStatus, updateBookingStatus, hb]
    · rw [getBooking_updateBookingRow s id _ hf, hb]
      rfl

/-- Witness for C9: setting `wBooking` to collected stores it verbatim. -/
theorem update_status_spec_witness :
    ∃ s1, updateStatus wStore "b1" "collected" =
        (.ok { wBooking with status := "collected" }, s1) ∧
      getBooking s1 "b1" = some { wBooking with status := "collected" } :=
  (update_status_spec wStore "b1" "collected").2 wBooking (by decide)
    (by decide)

/-!  C6: patient-submitted payment update. -/

/-- C6: recordPatientPayment by a non-owning patient fails with
ForbiddenError and leaves the store (in particular every payment field of
the booking) untouched; on success the payment status is recomputed with
the cash-vs-unverified rule only — never verified — and the payment date
is stamped. -/
theorem record_patient_payment_spec (s : Store) (id userId : String)
    (r : PatientPaymentRequest) (now : Nat) :
    (∀ b, getBooking s id = some b → b.patientId ≠ some userId →
      truthyStr r.paymentMethod = true → truthyStr r.amountPaid = true →
      recordPatientPayment s id userId r now = (.forbidden, s)) ∧
    (∀ b m, getBooking s id = some b → b.patientId = some userId →
      r.paymentMethod = some m → m ≠ "" → truthyStr r.amountPaid = true →
      ∃ b1 s1, recordPatientPayment s id userId r now = (.ok b1, s1) ∧
        b1.paymentStatus =
          (if m = "cash_on_delivery" ∨ m = "pay_at_lab" then m
           else "paid_unverified") ∧
        b1.paymentStatus ≠ "verified" ∧
        b1.paymentDate = some now ∧
        getBooking s1 id = some b1) := by
  constructor
  · intro b hb hown hpm hamt
    have hbne : (b.patientId != some userId) = true := by simpa using hown
    simp [recordPatientPayment, hb, hbne, hpm, hamt]
  · intro b m hb hown hm hmne hamt
    have hpm : truthyStr r.paymentMethod = true := by
      rw [hm]
      simpa [truthyStr] using hmne
    have hbeq : (b.patientId != some userId) = false := by simp [hown]
    have hts : truthyStr (some m) = true := by
      simpa [truthyStr] using hmne
    have hgb : ∀ P : String, getBooking (updateBookingRow s id
        (fun x => updateBookingPayment x m P (orNull r.transactionId)
          r.amountPaid now)) id =
        some (updateBookingPayment b m P (orNull r.transactionId)
          r.amountPaid now) := by
      intro P
      rw [getBooking_updateBookingRow s id
        (fun x => updateBookingPayment x m P (orNull r.transactionId)
          r.amountPaid now) (fun x => rfl), hb]
      rfl
    by_cases hc : m = "cash_on_delivery" ∨ m = "pay_at_lab"
    · have hcb : (m == "cash_on_delivery" || m == "pay_at_lab") = true := by
        rcases hc with h | h <;> simp [h]
      refine ⟨updateBookingPayment b m m (orNull r.transactionId)
          r.amountPaid now,
        updateBookingRow s id (fun x => updateBookingPayment x m m
          (orNull r.transactionId) r.amountPaid now), ?_, ?_, ?_, rfl, hgb m⟩
      · simp [recordPatientPayment, hb, hbeq, hpm, hamt, hm, hcb, hts]
      · simp [updateBookingPayment, if_pos hc]
      · show m ≠ "verified"
        rcases hc with h | h <;> subst h <;> decide
    · have hcb : (m == "cash_on_delivery" || m == "pay_at_lab") = false := by
        push_neg at hc
        simp [hc.1, hc.2]
      refine ⟨updateBookingPayment b m "paid_unverified"
          (orNull r.transactionId) r.amountPaid now,
        updateBookingRow s id (fun x => updateBookingPayment x m
          "paid_unverified" (orNull r.transactionId) r.amountPaid now),
        ?_, ?_, ?_, rfl, hgb "paid_unverified"⟩
      · simp [recordPatientPayment, hb, hbeq, hpm, hamt, hm, hcb, hts]
      · simp [updateBookingPayment, if_neg hc]
      · show "paid_unverified" ≠ "verified"
        decide

/-- A booking owned by patient p1 with an unpaid status. -/
def w6Booking : Booking :=
  { wBooking with
    id := "b6"
    paymentStatus := "pending"
    paymentMethod := none
    amountPaid := none
    paymentDate := none }

/-- Store holding only `w6Booking`. -/
def w6Store : Store :=
  { bookings := [w6Booking], reports := [], results := [], otps := []
    patients := [] }

/-- A patient payment submission with a non-cash method. -/
def w6Request : PatientPaymentRequest :=
  { paymentMethod := some "upi", transactionId := some "txn9"
    amountPaid := some "250" }

/-- Witness for C6: a different patient (p2) is refused and the store is
unchanged. -/
theorem record_patient_payment_spec_witness :
    recordPatientPayment w6Store "b6" "p2" w6Request 7 =
      (.forbidden, w6Store) :=
  (record_patient_payment_spec w6Store "b6" "p2" w6Request 7).1 w6Booking
    (by decide) (by decide) (by decide) (by decide)

/-!  C8: createBooking validation and the test-id list. -/

/-- C8 (amended): createBooking fails with ValidationError exactly when
phone, testIds, type, slot or paymentMethod is missing; a created booking
stores the request's test-id list verbatim, so a present-but-empty
testIds array passes validation and yields a booking with an empty
test-id list. -/
theorem create_booking_validation (r : BookingRequest) (newId : String)
    (now : Nat) :
    ((∃ msg, createBooking r newId now = .validationError msg) ↔
      (truthyStr r.phone = false ∨ r.testIds = none ∨
       truthyStr r.type = false ∨ truthyStr r.slot = false ∨
       truthyStr r.paymentMethod = false)) ∧
    (∀ b, createBooking r newId now = .created b →
      b.testIds = r.testIds.getD []) := by
  constructor
  · by_cases h1 : (!truthyStr r.phone || r.testIds.isNone ||
        !truthyStr r.type || !truthyStr r.slot) = true
    · constructor
      · intro _
        have h := h1
        simp only [Bool.or_eq_true, Bool.not_eq_true',
          Option.isNone_iff_eq_none] at h
        tauto
      · intro _
        exact ⟨"Missing required fields", by simp [createBooking, h1]⟩
    · by_cases h2 : (!truthyStr r.paymentMethod) = true
      · constructor
        · intro _
          have h := h2
          simp only [Bool.not_eq_true'] at h
          tauto
        · intro _
          exact ⟨"Payment method is required",
            by simp [createBooking, h1, h2]⟩
      · constructor
        · rintro ⟨msg, hmsg⟩
          simp [createBooking, h1, h2] at hmsg
        · intro hdisj
          exfalso
          simp only [Bool.or_eq_true, Bool.not_eq_true',
            Option.isNone_iff_eq_none, not_or] at h1 h2
          tauto
  · intro b hb
    unfold createBooking at hb
    split at hb
    · exact absurd hb (by simp)
    · split at hb
      · exact absurd hb (by simp)
      · injection hb with h
        rw [← h]

/-- A booking request whose testIds array is present but empty. -/
def c8Request : BookingRequest :=
  { patientId := none, guestName := some "G", phone := some "9"
    email := none, testIds := some [], type := some "walkin"
    slot := some "sl", paymentMethod := some "upi", transactionId := none
    amountPaid := none, razorpayOrderId := none, razorpayPaymentId := none }

/-- Counterexample for C8: a request with an empty testIds array passes
validation and creates a booking whose test-id list is empty, refuting
the claim that every successfully created booking carries a non-empty
list of test ids. -/
theorem create_booking_empty_tests_cex :
    ∃ b, createBooking c8Request "bk1" 0 = .created b ∧ b.testIds = [] :=
  ⟨_, rfl, rfl⟩

/-- A booking request with no payment method. -/
def c8MissingPm : BookingRequest :=
  { c8Request with paymentMethod := none }

/-- Witness for the amended C8: a request without a payment method is
rejected with ValidationError. -/
theorem create_booking_validation_witness :
    ∃ msg, createBooking c8MissingPm "bk2" 0 = .validationError msg :=
  (create_booking_validation c8MissingPm "bk2" 0).1.mpr (by decide)

/-!  C4: the patient report listing and the download token. -/

/-- C4 (amended): in the patient report listing, a report that resolves
to no booking — in particular a legacy report with no bookingId and no
fallback match by shared test id — is treated as not payment-verified and
its download token is withheld (null), even though the direct-download
endpoint serves such a report unconditionally. -/
theorem legacy_listing_token_withheld (s : Store) (pid : String)
    (report : Report)
    (hmem : report ∈ getReportsByPatient s pid)
    (hlegacy : report.bookingId = none)
    (hnomatch : ∀ res, getResult s report.resultId = some res →
      (getBookingsByPatient s pid).find?
        (fun b => b.testIds.contains res.testId) = none)
    (htok : getReportByToken s report.secureDownloadToken = some report) :
    (reportListEntry (getBookingsByPatient s pid) s
        report).secureDownloadToken = none ∧
    (reportListEntry (getBookingsByPatient s pid) s
        report).paymentVerified = false ∧
    reportListEntry (getBookingsByPatient s pid) s report ∈
      listPatientReports s pid ∧
    downloadReport s report.secureDownloadToken = .served report := by
  have hentry : reportListEntry (getBookingsByPatient s pid) s report =
      { reportId := report.id, paymentVerified := false
        paymentStatus := "pending", secureDownloadToken := none } := by
    simp only [reportListEntry]
    rw [hlegacy]
    cases hres : getResult s report.resultId with
    | none => rfl
    | some res =>
      by_cases ht : (res.testId != "") = true
      · have h2 : List.find? (fun b => decide (res.testId ∈ b.testIds))
            (getBookingsByPatient s pid) = none := by
          simpa using hnomatch res hres
        simp [ht, h2]
      · have ht2 : (res.testId != "") = false := by simpa using ht
        simp [ht2]
  refine ⟨by rw [hentry], by rw [hentry], ?_, ?_⟩
  · unfold listPatientReports
    exact List.mem_map_of_mem _ hmem
  · simp [downloadReport, htok, hlegacy]

/-- A legacy report (no bookingId) of patient p4. -/
def c4Report : Report :=
  { id := "r4", patientId := "p4", resultId := "res4", bookingId := none
    secureDownloadToken := "tok4" }

/-- Store with the legacy report, its result, and no bookings at all. -/
def c4Store : Store :=
  { bookings := [], reports := [c4Report]
    results := [{ id := "res4", patientId := "p4", testId := "t4" }]
    otps := [], patients := [] }

/-- Counterexample for C4: for a legacy report with no booking match the
download endpoint serves the report (disclosure is allowed by the gate),
yet its listing entry carries a null download token — refuting the claim
that the listing includes the token whenever disclosure is allowed. -/
theorem legacy_listing_token_cex :
    listPatientReports c4Store "p4" =
      [{ reportId := "r4", paymentVerified := false
         paymentStatus := "pending", secureDownloadToken := none }] ∧
    downloadReport c4Store "tok4" = .served c4Report := by
  constructor <;> rfl

/-- Witness for the amended C4 at the concrete store. -/
theorem legacy_listing_token_withheld_witness :
    (reportListEntry (getBookingsByPatient c4Store "p4") c4Store
        c4Report).secureDownloadToken = none ∧
    downloadReport c4Store "tok4" = .served c4Report := by
  obtain ⟨h1, -, -, h4⟩ := legacy_listing_token_withheld c4Store "p4"
    c4Report (by decide) (by decide) (fun res _ => rfl) (by decide)
  exact ⟨h1, h4⟩

/-!  C5: OTP attempt limiting in email verification. -/

/-- C5 (amended): starting from a live email-verification OTP with zero
attempts, three wrong codes yield InvalidCodeError three times (the third
advertises zero remaining attempts and leaves the counter at 3, the
record still stored); the fourth attempt — even with the correct code —
yields AttemptsExceededError and deletes the record; a fifth attempt then
finds no verification request. -/
theorem otp_attempts_spec (s : Store) (email code wrong oid : String)
    (exp : Nat)
    (hotps : s.otps = [⟨oid, email, code, "email_verification", 0, exp⟩])
    (hemail : email ≠ "") (hwrong : wrong ≠ "") (hcode : code ≠ "")
    (hne : wrong ≠ code) :
    (verifyEmail s email wrong).1 = .invalidCode 2 ∧
    (verifyEmail (verifyEmail s email wrong).2 email wrong).1 =
      .invalidCode 1 ∧
    (verifyEmail (verifyEmail (verifyEmail s email wrong).2 email wrong).2
      email wrong).1 = .invalidCode 0 ∧
    ((verifyEmail (verifyEmail (verifyEmail s email wrong).2 email
      wrong).2 email wrong).2.otps ≠ []) ∧
    (verifyEmail (verifyEmail (verifyEmail (verifyEmail s email wrong).2
      email wrong).2 email wrong).2 email code).1 = .attemptsExceeded ∧
    (verifyEmail (verifyEmail (verifyEmail (verifyEmail s email wrong).2
      email wrong).2 email wrong).2 email code).2.otps = [] ∧
    (verifyEmail (verifyEmail (verifyEmail (verifyEmail (verifyEmail s
      email wrong).2 email wrong).2 email wrong).2 email code).2 email
      code).1 = .noRequest := by
  have he : (email == "") = false := by simpa using hemail
  have hw : (wrong == "") = false := by simpa using hwrong
  have hc : (code == "") = false := by simpa using hcode
  have hcw : (code != wrong) = true := by simpa using (Ne.symm hne)
  simp [verifyEmail, getOtpByContact, incrementOtpAttempts, deleteOtp,
    hotps, he, hw, hc, hcw]

/-- The live OTP of the concrete C5 scenario. -/
def c5Otp : Otp :=
  { id := "o1", contact := "user@x.com", otp := "123456"
    purpose := "email_verification", attempts := 0, expiresAt := 1000 }

/-- Store holding only `c5Otp`. -/
def c5Store : Store :=
  { bookings := [], reports := [], results := [], otps := [c5Otp]
    patients := [] }

/-- Counterexample for C5: the third wrong attempt yields
InvalidCodeError with zero remaining attempts — not
AttemptsExceededError — and the OTP record is still stored afterwards. -/
theorem otp_third_attempt_cex :
    (verifyEmail (verifyEmail (verifyEmail c5Store "user@x.com"
      "000000").2 "user@x.com" "000000").2 "user@x.com" "000000").1 =
      .invalidCode 0 ∧
    (verifyEmail (verifyEmail (verifyEmail c5Store "user@x.com"
      "000000").2 "user@x.com" "000000").2 "user@x.com" "000000").1 ≠
      .attemptsExceeded ∧
    (verifyEmail (verifyEmail (verifyEmail c5Store "user@x.com"
      "000000").2 "user@x.com" "000000").2 "user@x.com" "000000").2.otps ≠
      [] := by
  refine ⟨rfl, ?_, ?_⟩ <;> decide

/-- Witness for the amended C5 at the concrete store. -/
theorem otp_attempts_spec_witness :
    (verifyEmail c5Store "user@x.com" "000000").1 = .invalidCode 2 :=
  (otp_attempts_spec c5Store "user@x.com" "123456" "000000" "o1" 1000 rfl
    (by decide) (by decide) (by decide) (by decide)).1

/-!  C7: lemmas about the abnormal-flag parser on digit strings. -/

/-- A digit is not regex whitespace. -/
theorem digit_not_space (c : Char) (h : c.isDigit = true) :
    jsSpace c = false := by
  simp only [Char.isDigit] at h
  simp only [jsSpace, Bool.or_eq_false_iff, beq_eq_false_iff_ne]
  refine ⟨⟨⟨⟨⟨?_, ?_⟩, ?_⟩, ?_⟩, ?_⟩, ?_⟩ <;>
    (intro e; subst e; exact absurd h (by decide))

/-- Greedy digit scanning of a digit run followed by a non-digit (or
nothing). -/
theorem takeDigits_append (d r : List Char)
    (hd : ∀ c ∈ d, c.isDigit = true)
    (hr : ∀ c, r.head? = some c → c.isDigit = false) :
    takeDigits (d ++ r) = (d, r) := by
  induction d with
  | nil =>
    cases r with
    | nil => rfl
    | cons c cs =>
      have := hr c (by simp)
      simp [takeDigits, this]
  | cons a l ih =>
    have ha : a.isDigit = true := hd a (by simp)
    have ihl := ih (fun c hc => hd c (by simp [hc]))
    simp [takeDigits, ha, ihl]

/-- The range regex matches a pure `digits-digits` string at its head,
capturing the two digit runs. -/
theorem matchRangeAt_digits (d1 d2 : List Char)
    (h1 : d1 ≠ []) (h2 : d2 ≠ [])
    (hd1 : ∀ c ∈ d1, c.isDigit = true)
    (hd2 : ∀ c ∈ d2, c.isDigit = true) :
    matchRangeAt (d1 ++ '-' :: d2) = some (d1, d2) := by
  have htake1 : takeDigits (d1 ++ '-' :: d2) = (d1, '-' :: d2) := by
    refine takeDigits_append d1 ('-' :: d2) hd1 ?_
    intro c hc
    simp only [List.head?] at hc
    cases hc
    decide
  have htake2 : takeDigits d2 = (d2, []) := by
    have h := takeDigits_append d2 [] hd2 (by intro c hc; simp at hc)
    rwa [List.append_nil] at h
  have hdropDash : ('-' :: d2).dropWhile (fun c => jsSpace c) =
      '-' :: d2 := by
    rw [List.dropWhile_cons, if_neg (by decide)]
  have hdrop2 : d2.dropWhile (fun c => jsSpace c) = d2 := by
    obtain ⟨b, l2, rfl⟩ := List.exists_cons_of_ne_nil h2
    have hb : jsSpace b = false := digit_not_space b (hd2 b (by simp))
    rw [List.dropWhile_cons, if_neg (by simp [hb])]
  have hni1 : d1.isEmpty = false := by
    cases d1 with
    | nil => exact absurd rfl h1
    | cons a l => rfl
  have hni2 : d2.isEmpty = false := by
    cases d2 with
    | nil => exact absurd rfl h2
    | cons a l => rfl
  simp [matchRangeAt, htake1, htake2, hdropDash, hdrop2, hni1, hni2]

/-- The leftmost match of the range regex on `digits-digits` is at
position 0 and captures the two digit runs. -/
theorem searchRange_digits (d1 d2 : List Char)
    (h1 : d1 ≠ []) (h2 : d2 ≠ [])
    (hd1 : ∀ c ∈ d1, c.isDigit = true)
    (hd2 : ∀ c ∈ d2, c.isDigit = true) :
    searchRange (d1 ++ '-' :: d2) = some (d1, d2) := by
  obtain ⟨a, l1, rfl⟩ := List.exists_cons_of_ne_nil h1
  have hm := matchRangeAt_digits (a :: l1) d2 (by simp) h2 hd1 hd2
  simp only [List.cons_append] at hm ⊢
  simp [searchRange, hm]

/-- C7: for a normal range of the shape lo-hi (two digit runs around a
dash), a numeric value is flagged abnormal exactly when it is below lo or
above hi; a non-numeric value is never flagged; and the five concrete
spec cases hold. -/
theorem abnormal_parser_spec :
    (∀ (v range : String) (x lo hi : JsNum) (d1 d2 : List Char),
      jsParseFloat v = some x →
      range.data = d1 ++ '-' :: d2 →
      d1 ≠ [] → d2 ≠ [] →
      (∀ c ∈ d1, c.isDigit = true) → (∀ c ∈ d2, c.isDigit = true) →
      jsParseFloatChars d1 = some lo → jsParseFloatChars d2 = some hi →
      isValueAbnormal v range = (JsNum.ltb x lo || JsNum.gtb x hi)) ∧
    (∀ v range : String, jsParseFloat v = none →
      isValueAbnormal v range = false) ∧
    isValueAbnormal "101" "70-100" = true ∧
    isValueAbnormal "85" "70-100" = false ∧
    isValueAbnormal "150" "<140" = true ∧
    isValueAbnormal "30" ">40" = true ∧
    isValueAbnormal "abc" "70-100" = false := by
  refine ⟨?_, ?_, by decide, by decide, by decide, by decide, by decide⟩
  · intro v range x lo hi d1 d2 hx hrange h1 h2 hd1 hd2 hlo hhi
    have hx2 : jsParseFloatChars v.data = some x := hx
    have hv : v.data.isEmpty = false := by
      cases hve : v.data with
      | nil =>
        rw [hve, show jsParseFloatChars [] = none from rfl] at hx2
        cases hx2
      | cons a l => rfl
    have hr : range.data.isEmpty = false := by
      rw [hrange]
      cases d1 with
      | nil => exact absurd rfl h1
      | cons a l => rfl
    have hsearch : searchRange range.data = some (d1, d2) := by
      rw [hrange]
      exact searchRange_digits d1 d2 h1 h2 hd1 hd2
    simp [isValueAbnormal, hv, hr, hx2, hsearch, parseCapture, hlo, hhi]
  · intro v range hnone
    have hx2 : jsParseFloatChars v.data = none := hnone
    by_cases hv : v.data.isEmpty
    · simp [isValueAbnormal, hv]
    · simp [isValueAbnormal, hv, hx2]

/-- Witness for C7: the general lo-hi clause applied at value 101 and
range 70-100. -/
theorem abnormal_parser_spec_witness :
    isValueAbnormal "101" "70-100" =
      (JsNum.ltb (.num ⟨101, 0⟩) (.num ⟨70, 0⟩) ||
       JsNum.gtb (.num ⟨101, 0⟩) (.num ⟨100, 0⟩)) :=
  abnormal_parser_spec.1 "101" "70-100" (.num ⟨101, 0⟩) (.num ⟨70, 0⟩)
    (.num ⟨100, 0⟩) ['7', '0'] ['1', '0', '0'] (by decide) (by decide)
    (by decide) (by decide) (by decide) (by decide) (by decide) (by decide)

end Archanaa
